import Mathlib

/-!
Verification of the MeshMonitor desktop backend supervisor
(`src/desktop/src-tauri/src/{config.rs, lib.rs, main.rs}`).

Shallow embedding conventions:
* Rust `String` / `PathBuf` become Lean `String` (paths are ASCII in all
  claims, so byte indexing and char indexing agree); `u16` becomes `Nat`
  with an explicit `< 65536` bound where the claim speaks of valid
  configurations.
* Filesystem and OS effects are passed explicitly: the configuration file
  is an `FsWorld`, artifact existence is a predicate `String → Bool`,
  randomness (`uuid::Uuid::new_v4`) is a pair of 128-bit naturals supplied
  by the caller, and each fallible I/O step of `start_backend` is an
  oracle field of `StartWorld`.
* `serde_json` round-tripping of the flat `Config` record is modelled by
  an explicit JSON value type with per-field encode/decode, in the order
  the fields are declared in the Rust struct.
* Logging to `desktop.log` (`log_to_file`) is append-only diagnostics with
  no influence on control flow, and is elided from the model.
-/

namespace MeshMonitor

/-- The persisted configuration record (`struct Config` in config.rs).
`u16` ports are modelled as `Nat`. -/
structure Config where
  meshtastic_ip : String
  meshtastic_port : Nat
  web_port : Nat
  auto_start : Bool
  session_secret : String
  setup_completed : Bool
deriving Repr, DecidableEq

/-! ### Secret generation (`generate_secret`, config.rs lines 114-117)

`uuid::Uuid::new_v4()` yields a random 128-bit value; `to_string()` renders
it as 32 lowercase hex digits in 8-4-4-4-12 groups separated by hyphens;
`.replace("-", "")` removes every hyphen. The randomness is supplied as a
`Nat` (the 128-bit value). -/

/-- One lowercase hex digit, as Rust/uuid renders nibbles. -/
def hexChar (n : Nat) : Char :=
  if n < 10 then Char.ofNat (48 + n) else Char.ofNat (87 + n)

/-- Fixed-width big-endian hex rendering of `n` with `w` digits. -/
def toHexFixed : Nat → Nat → List Char
  | 0, _ => []
  | w + 1, n => toHexFixed w (n / 16) ++ [hexChar (n % 16)]

/-- The hyphenated `uuid::Uuid::to_string()` rendering (8-4-4-4-12). -/
def uuidChars (n : Nat) : List Char :=
  let h := toHexFixed 32 n
  h.take 8 ++ ['-'] ++ (h.drop 8).take 4 ++ ['-'] ++ (h.drop 12).take 4
    ++ ['-'] ++ (h.drop 16).take 4 ++ ['-'] ++ h.drop 20

/-- Models Rust `str::replace("-", "")`: for the single-character pattern
`"-"` this removes every hyphen. -/
def removeHyphens (s : String) : String :=
  String.mk (s.data.filter (fun c => c ≠ '-'))

/-- `generate_secret` (config.rs): two independent UUID v4 values rendered
hyphen-free and concatenated. `r1`, `r2` are the two 128-bit random values. -/
def generate_secret (r1 r2 : Nat) : String :=
  removeHyphens (String.mk (uuidChars r1)) ++ removeHyphens (String.mk (uuidChars r2))

/-- `Config::default()` (config.rs lines 21-32), with the randomness for
`generate_secret` passed explicitly. -/
def Config.mkDefault (r1 r2 : Nat) : Config :=
  { meshtastic_ip := "192.168.1.100"
    meshtastic_port := 4403
    web_port := 8080
    auto_start := false
    session_secret := generate_secret r1 r2
    setup_completed := false }

/-! ### JSON serialization model (`serde_json` on the flat record) -/

/-- A minimal JSON value type, enough for the flat `Config` object. -/
inductive Json where
  | str : String → Json
  | num : Nat → Json
  | bool : Bool → Json
  | obj : List (String × Json) → Json
deriving Repr

/-- First-match field lookup in a JSON object. -/
def Json.lookupField : List (String × Json) → String → Option Json
  | [], _ => none
  | (k, v) :: rest, key => if k = key then some v else Json.lookupField rest key

/-- Serde `Serialize` derive: fields in declaration order. -/
def Config.toJson (c : Config) : Json :=
  .obj [("meshtastic_ip", .str c.meshtastic_ip),
        ("meshtastic_port", .num c.meshtastic_port),
        ("web_port", .num c.web_port),
        ("auto_start", .bool c.auto_start),
        ("session_secret", .str c.session_secret),
        ("setup_completed", .bool c.setup_completed)]

def getStr (fields : List (String × Json)) (key : String) : Except String String :=
  match Json.lookupField fields key with
  | some (.str s) => .ok s
  | _ => .error ("Failed to parse config: invalid field " ++ key)

/-- Deserialize a `u16` field: serde rejects out-of-range numbers. -/
def getU16 (fields : List (String × Json)) (key : String) : Except String Nat :=
  match Json.lookupField fields key with
  | some (.num n) =>
      if n < 65536 then .ok n
      else .error ("Failed to parse config: invalid field " ++ key)
  | _ => .error ("Failed to parse config: invalid field " ++ key)

def getBool (fields : List (String × Json)) (key : String) : Except String Bool :=
  match Json.lookupField fields key with
  | some (.bool b) => .ok b
  | _ => .error ("Failed to parse config: invalid field " ++ key)

/-- Serde `Deserialize` derive for `Config`. -/
def Config.fromJson : Json → Except String Config
  | .obj fields => do
      let ip ← getStr fields "meshtastic_ip"
      let mp ← getU16 fields "meshtastic_port"
      let wp ← getU16 fields "web_port"
      let au ← getBool fields "auto_start"
      let ss ← getStr fields "session_secret"
      let sc ← getBool fields "setup_completed"
      pure { meshtastic_ip := ip, meshtastic_port := mp, web_port := wp,
             auto_start := au, session_secret := ss, setup_completed := sc }
  | _ => .error "Failed to parse config: not an object"

/-! ### Configuration store (`Config::load/save/needs_setup/complete_setup`) -/

/-- The filesystem state relevant to the configuration store: the content
of `.../MeshMonitor/config.json` (as the parsed JSON value; `None` means
the file does not exist), plus an oracle telling whether the next write
I/O operation fails. -/
structure FsWorld where
  configFile : Option Json
  writeFails : Bool

/-- `Config::save` (config.rs lines 52-66): create the parent directory,
serialize, write the file. A failing write surfaces as the
`Failed to write config` error. -/
def Config.save (c : Config) (w : FsWorld) : Except String FsWorld :=
  if w.writeFails then .error "Failed to write config"
  else .ok { w with configFile := some c.toJson }

/-- `Config::load` (config.rs lines 36-49): read and parse the file when it
exists; otherwise build `Config::default()`, persist it, and return it.
`r1 r2` feed `generate_secret` in the default branch. -/
def Config.load (w : FsWorld) (r1 r2 : Nat) : Except String (Config × FsWorld) :=
  match w.configFile with
  | some j =>
      match Config.fromJson j with
      | .ok c => .ok (c, w)
      | .error e => .error e
  | none =>
      let c := Config.mkDefault r1 r2
      match c.save w with
      | .ok w2 => .ok (c, w2)
      | .error e => .error e

/-- `Config::needs_setup` (config.rs lines 69-71). -/
def Config.needs_setup (c : Config) : Bool :=
  !c.setup_completed

/-- `Config::complete_setup` (config.rs lines 74-77): mutate the in-memory
flag first, then attempt to save. Returns the mutated record together with
the save outcome. -/
def Config.complete_setup (c : Config) (w : FsWorld) : Config × Except String FsWorld :=
  let c2 := { c with setup_completed := true }
  (c2, c2.save w)

/-! ### Launch spec builder and preflight (lib.rs) -/

/-- `strip_extended_length_prefix` (lib.rs lines 13-26). The two
`cfg`-gated Rust functions are modelled as one function taking the target
as a flag: on Windows a leading `\\?\` (four ASCII bytes, so Rust's byte
slice `[4..]` is a four-character drop) is removed; elsewhere the path is
returned unchanged. -/
def strip_extended_length_prefix (isWindows : Bool) (path : String) : String :=
  if isWindows then
    if path.data.take 4 = ['\\', '\\', '?', '\\'] then String.mk (path.data.drop 4)
    else path
  else path

/-- Path of the bundled Node.js executable (lib.rs lines 74-76). -/
def node_path (isWindows : Bool) (resource : String) : String :=
  resource ++ "/binaries/" ++ (if isWindows then "node.exe" else "node")

/-- Path of the server entry script (lib.rs line 71). -/
def server_path (resource : String) : String :=
  resource ++ "/dist/server/server.js"

/-- Working directory for the child (lib.rs line 79). -/
def server_dir (resource : String) : String :=
  resource ++ "/dist"

/-- `package.json` path (lib.rs line 104). -/
def package_json_path (resource : String) : String :=
  server_dir resource ++ "/package.json"

/-- `node_modules` path (lib.rs line 113). -/
def node_modules_path (resource : String) : String :=
  server_dir resource ++ "/node_modules"

/-- `services` directory path (lib.rs line 122). -/
def services_path (resource : String) : String :=
  server_dir resource ++ "/services"

/-- The artifact error messages of lib.rs; `{:?}` debug-quoting of the
path is rendered as the plain path string. -/
def missingMsg (name path : String) : String :=
  "ERROR: " ++ name ++ " not found at " ++ path

/-- The preflight existence checks of `start_backend` (lib.rs lines
89-128), in source order, over an existence oracle `fs`. -/
def preflight (fs : String → Bool) (isWindows : Bool) (resource : String) :
    Except String Unit :=
  if fs ( node_path isWindows resource) = false then
    .error (missingMsg "Node.js binary" ( node_path isWindows resource))
  else if fs ( server_path resource) = false then
    .error (missingMsg "Server.js" ( server_path resource))
  else if fs ( package_json_path resource) = false then
    .error (missingMsg "package.json" ( package_json_path resource))
  else if fs ( node_modules_path resource) = false then
    .error (missingMsg "node_modules" ( node_modules_path resource))
  else if fs ( services_path resource) = false then
    .error (missingMsg "services" ( services_path resource))
  else .ok ()

/-- The required artifacts with their diagnostic names, in the order the
code checks them. -/
def requiredArtifacts (isWindows : Bool) (resource : String) :
    List (String × String) :=
  [("Node.js binary", node_path isWindows resource),
   ("Server.js", server_path resource),
   ("package.json", package_json_path resource),
   ("node_modules", node_modules_path resource),
   ("services", services_path resource)]

/-! ### `start_backend` (lib.rs lines 50-195) -/

/-- Observable effects of one `start_backend` run; the only event the
claims need is the attempt to spawn the child. -/
inductive Ev where
  | spawnAttempt
deriving Repr, DecidableEq

/-- The spawned command as configured on `std::process::Command`
(lib.rs lines 150-164): program, arguments, working directory and
environment, plus the child's pid. -/
structure SpawnedCmd where
  pid : Nat
  program : String
  args : List String
  cwd : String
  env : List (String × String)
deriving Repr, DecidableEq

/-- Environment mapping given to the child (lib.rs lines 155-164). -/
def buildEnv (c : Config) (dbPath : String) : List (String × String) :=
  [("NODE_ENV", "production"),
   ("PORT", toString c.web_port),
   ("MESHTASTIC_NODE_IP", c.meshtastic_ip),
   ("MESHTASTIC_TCP_PORT", toString c.meshtastic_port),
   ("DATABASE_PATH", dbPath),
   ("SESSION_SECRET", c.session_secret),
   ("ALLOWED_ORIGINS", "http://localhost:" ++ toString c.web_port)]

/-- Every external outcome one `start_backend` run can observe, passed
explicitly: the config-file world and randomness for `Config::load`, the
result of `get_data_path` (directory resolution plus `create_dir_all`),
whether creating the `logs` directory succeeds, the result of
`app.path().resource_dir()`, artifact existence, whether the two child
log files can be created, the OS family, and the spawn outcome (`Err`
message or child pid). -/
structure StartWorld where
  fsw : FsWorld
  rng1 : Nat
  rng2 : Nat
  dataDir : Except String String
  logsDirCreateOk : Bool
  resourceDir : Except String String
  fs : String → Bool
  stdoutCreateOk : Bool
  stderrCreateOk : Bool
  spawnOutcome : Except String Nat
  isWindows : Bool

/-- `start_backend` (lib.rs lines 50-195): load config, derive the
database and logs paths, resolve and normalize the resource directory,
run the preflight checks, create the redirected stdout/stderr log files,
then spawn. The second component is the effect trace: `[.spawnAttempt]`
exactly when `cmd.spawn()` is reached. -/
def start_backend (w : StartWorld) : Except String SpawnedCmd × List Ev :=
  match Config.load w.fsw w.rng1 w.rng2 with
  | .error e => (.error e, [])
  | .ok (config, _) =>
    match w.dataDir with
    | .error e => (.error e, [])
    | .ok dataPath =>
      let db_path := dataPath ++ "/meshmonitor.db"
      if w.logsDirCreateOk = false then
        (.error "Failed to create logs directory", [])
      else
        match w.resourceDir with
        | .error e => (.error ("Failed to get resource dir: " ++ e), [])
        | .ok rd =>
          let resource_path := strip_extended_length_prefix w.isWindows rd
          match preflight w.fs w.isWindows resource_path with
          | .error msg => (.error msg, [])
          | .ok _ =>
            if w.stdoutCreateOk = false then
              (.error "Failed to create stdout log", [])
            else if w.stderrCreateOk = false then
              (.error "Failed to create stderr log", [])
            else
              match w.spawnOutcome with
              | .error e => (.error ("Failed to start backend: " ++ e), [.spawnAttempt])
              | .ok pid =>
                  (.ok { pid := pid,
                         program := node_path w.isWindows resource_path,
                         args := [ server_path resource_path],
                         cwd := server_dir resource_path,
                         env := buildEnv config db_path }, [.spawnAttempt])

/-! ### `stop_backend` (lib.rs lines 198-206) and `restart_backend`
(main.rs lines 27-39) -/

/-- Effects of `stop_backend` on the child process. -/
inductive StopEv where
  | kill (pid : Nat)
  | wait (pid : Nat)
deriving Repr, DecidableEq

/-- `stop_backend`: under the lock, `take()` the slot; if a child was
present, `kill()` it (the `Result` is discarded: `killFails` has no
influence) and `wait()` for it. The Rust function returns `()`, so no
error can be surfaced. Arguments: the guarded slot, the set of live child
pids, and whether the kill syscall fails; result: new slot, new live set,
effect trace. -/
def stop_backend (slot : Option Nat) (alive : List Nat) (_killFails : Bool) :
    Option Nat × List Nat × List StopEv :=
  match slot with
  | none => (none, alive, [])
  | some pid =>
      (none, alive.erase pid, [StopEv.kill pid, StopEv.wait pid])

/-- Supervisor state: the mutex-guarded slot of `BackendState`, the pids
of children of this supervisor still alive in the OS, and the next fresh
pid. -/
structure SupState where
  slot : Option Nat
  alive : List Nat
  nextPid : Nat
deriving Repr, DecidableEq

/-- `restart_backend` (main.rs lines 27-39), run sequentially (no
interleaving): `stop_backend`, then `start_backend`; on success the fresh
child enters the live set and its handle is stored in the slot; on error
the error propagates via `?` with no further state change. -/
def restart_backend (s : SupState) (w : StartWorld) :
    Except String Unit × SupState :=
  let stopped := stop_backend s.slot s.alive false
  let s1 : SupState := { slot := stopped.1, alive := stopped.2.1, nextPid := s.nextPid }
  match (start_backend w).1 with
  | .error e => (.error e, s1)
  | .ok _ =>
      let pid := s1.nextPid
      (.ok (), { slot := some pid, alive := s1.alive ++ [pid], nextPid := pid + 1 })

/-! ### Interleaved restarts (claim about concurrent callers)

`restart_backend` holds the `BackendState` mutex during three disjoint
intervals, not across the whole operation:
1. inside `stop_backend` (take + kill + wait),
2. not at all while `start_backend` spawns the child,
3. while storing the new handle (`*process = Some(child)`).
Each lock-held interval is one atomic step; a caller is a program counter
plus the child handle it holds locally between spawn and store. The model
takes the successful-spawn path of `start_backend` for every caller. -/
structure Caller where
  pc : Nat
  held : Option Nat
deriving Repr, DecidableEq

/-- One atomic step of a caller running `restart_backend`:
pc 0 → `stop_backend` under the lock; pc 1 → spawn without the lock;
pc 2 → store the held handle into the slot under the lock (replacing,
not merging, any prior value); pc ≥ 3 → done. -/
def restartStep (c : Caller) (s : SupState) : Caller × SupState :=
  if c.pc = 0 then
    ({ c with pc := 1 },
     { s with slot := none,
              alive := match s.slot with
                       | some p => s.alive.erase p
                       | none => s.alive })
  else if c.pc = 1 then
    ({ pc := 2, held := some s.nextPid },
     { s with alive := s.alive ++ [s.nextPid], nextPid := s.nextPid + 1 })
  else if c.pc = 2 then
    ({ c with pc := 3 }, { s with slot := c.held })
  else (c, s)

/-- Two concurrent callers A and B of `restart_backend` over one shared
`BackendState`. -/
structure Sys where
  a : Caller
  b : Caller
  sup : SupState
deriving Repr, DecidableEq

/-- Run an interleaving schedule (`true` = caller A moves, `false` =
caller B moves). -/
def runSched : List Bool → Sys → Sys
  | [], sys => sys
  | w :: rest, sys =>
      if w then
        let step := restartStep sys.a sys.sup
        runSched rest { sys with a := step.1, sup := step.2 }
      else
        let step := restartStep sys.b sys.sup
        runSched rest { sys with b := step.1, sup := step.2 }

/-! ### Concrete example inputs used by witnesses and the interleaving
counterexample -/

/-- A concrete valid configuration (the end-to-end scenario of the spec). -/
def cfgEx : Config :=
  { meshtastic_ip := "192.168.1.50"
    meshtastic_port := 4403
    web_port := 9090
    auto_start := false
    session_secret := "s3cr3t"
    setup_completed := false }

/-- A config-file world holding `cfgEx`, with writes succeeding. -/
def fswEx : FsWorld :=
  { configFile := some (Config.toJson cfgEx), writeFails := false }

/-- A start world in which every step succeeds (non-Windows, all
artifacts present, spawn yields pid 7). -/
def wEx : StartWorld :=
  { fsw := fswEx
    rng1 := 0
    rng2 := 0
    dataDir := .ok "/data"
    logsDirCreateOk := true
    resourceDir := .ok "/app/resources"
    fs := fun _ => true
    stdoutCreateOk := true
    stderrCreateOk := true
    spawnOutcome := .ok 7
    isWindows := false }

/-- The command `start_backend wEx` spawns. -/
def scEx : SpawnedCmd :=
  { pid := 7
    program := "/app/resources/binaries/node"
    args := ["/app/resources/dist/server/server.js"]
    cwd := "/app/resources/dist"
    env := buildEnv cfgEx "/data/meshmonitor.db" }

/-- A start world whose configuration load fails (the persisted file
holds a JSON number, not an object). -/
def wFailEx : StartWorld :=
  { wEx with fsw := { configFile := some (.num 0), writeFails := false } }

/-- A supervisor tracking child pid 3. -/
def supEx : SupState :=
  { slot := some 3, alive := [3], nextPid := 4 }

/-- Initial system for the interleaving counterexample: the supervisor is
Running with child pid 0, and two callers are both about to run
`restart_backend`. -/
def cexInit : Sys :=
  { a := { pc := 0, held := none }
    b := { pc := 0, held := none }
    sup := { slot := some 0, alive := [0], nextPid := 1 } }

/-- The interleaving A.stop, A.spawn, B.stop, B.spawn, A.store, B.store.
Every step is one lock-held (or lock-free) interval of the code, so this
schedule is realizable: the mutex is released between the intervals. -/
def cexSched : List Bool :=
  [true, true, false, false, true, false]

/-! ### Helper lemmas -/

lemma toHexFixed_length (w n : Nat) : (toHexFixed w n).length = w := by
  induction w generalizing n with
  | zero => rfl
  | succ w ih => simp [toHexFixed, ih]

lemma hexChar_ne_hyphen (k : Nat) (hk : k < 16) : hexChar k ≠ '-' := by
  interval_cases k <;> decide

lemma mem_toHexFixed_ne_hyphen (w n : Nat) (c : Char)
    (hc : c ∈ toHexFixed w n) : c ≠ '-' := by
  induction w generalizing n with
  | zero => simp [toHexFixed] at hc
  | succ w ih =>
      simp only [toHexFixed, List.mem_append, List.mem_singleton] at hc
      rcases hc with hc | hc
      · exact ih _ hc
      · subst hc
        exact hexChar_ne_hyphen _ (Nat.mod_lt _ (by norm_num))

lemma filter_sub_toHexFixed (n : Nat) (l : List Char)
    (hl : l ⊆ toHexFixed 32 n) :
    l.filter (fun c => c ≠ '-') = l := by
  rw [List.filter_eq_self]
  intro a ha
  simpa using mem_toHexFixed_ne_hyphen 32 n a (hl ha)

lemma removeHyphens_uuidChars_length (n : Nat) :
    (removeHyphens (String.mk (uuidChars n))).length = 32 := by
  show ((uuidChars n).filter (fun c => c ≠ '-')).length = 32
  have hlen := toHexFixed_length 32 n
  simp only [uuidChars, List.filter_append]
  rw [filter_sub_toHexFixed n _ (List.take_subset _ _),
      filter_sub_toHexFixed n _ ((List.take_subset _ _).trans (List.drop_subset _ _)),
      filter_sub_toHexFixed n _ ((List.take_subset _ _).trans (List.drop_subset _ _)),
      filter_sub_toHexFixed n _ ((List.take_subset _ _).trans (List.drop_subset _ _)),
      filter_sub_toHexFixed n _ (List.drop_subset _ _)]
  simp [List.length_take, List.length_drop, hlen]

lemma generate_secret_length (r1 r2 : Nat) :
    (generate_secret r1 r2).length = 64 := by
  simp [generate_secret, String.length_append,
        removeHyphens_uuidChars_length]

lemma Config.fromJson_toJson (c : Config)
    (hmp : c.meshtastic_port < 65536) (hwp : c.web_port < 65536) :
    Config.fromJson c.toJson = .ok c := by
  simp [Config.toJson, Config.fromJson, getStr, getU16, getBool,
        Json.lookupField, hmp, hwp, Bind.bind, Except.bind, Pure.pure,
        Except.pure]

lemma preflight_eq_first_missing (fs : String → Bool) (win : Bool) (r : String) :
    preflight fs win r =
      match (requiredArtifacts win r).find? (fun a => !fs a.2) with
      | none => Except.ok ()
      | some a => Except.error (missingMsg a.1 a.2) := by
  cases h1 : fs ( node_path win r) <;>
  cases h2 : fs ( server_path r) <;>
  cases h3 : fs ( package_json_path r) <;>
  cases h4 : fs ( node_modules_path r) <;>
  cases h5 : fs ( services_path r) <;>
  simp [preflight, requiredArtifacts, List.find?, h1, h2, h3, h4, h5]

lemma preflight_ok_iff (fs : String → Bool) (win : Bool) (r : String) :
    preflight fs win r = .ok () ↔
      ∀ a ∈ requiredArtifacts win r, fs a.2 = true := by
  rw [preflight_eq_first_missing]
  cases hfind : (requiredArtifacts win r).find? (fun a => !fs a.2) with
  | none =>
      simp only [List.find?_eq_none, Bool.not_eq_true', ne_eq] at hfind
      simpa using fun a ha => hfind a ha
  | some a =>
      have hmem := List.mem_of_find?_eq_some hfind
      have hprop := List.find?_some hfind
      simp only [Bool.not_eq_true'] at hprop
      simp only [Except.error.injEq]
      constructor
      · intro h; exact absurd h (by simp)
      · intro h
        exact absurd (h a hmem) (by simp [hprop])

/-! ### Claim theorems -/

/-- C2: the preflight portion of `start_backend` checks the required
artifacts in the fixed order executable, entry script, manifest,
dependency directory, services directory, and fails with exactly the
first missing artifact's name and expected path (never an aggregate); in
particular, when the entry script and the dependency directory are both
absent, the error names the entry script (Server.js). -/
theorem C2_preflight_first_missing (fs : String → Bool) (win : Bool) (r : String) :
    (preflight fs win r =
      match (requiredArtifacts win r).find? (fun a => !fs a.2) with
      | none => Except.ok ()
      | some a => Except.error (missingMsg a.1 a.2)) ∧
    (fs ( node_path win r) = true → fs ( server_path r) = false →
      fs ( node_modules_path r) = false →
      preflight fs win r = .error (missingMsg "Server.js" ( server_path r))) := by
  refine ⟨preflight_eq_first_missing fs win r, fun h1 h2 _ => ?_⟩
  simp [preflight, h1, h2]

/-- Witness for C2: with only the Node.js binary present (entry script
and dependency directory both absent), the reported failure names
Server.js. -/
theorem C2_witness :
    preflight (fun p => p == "/r/binaries/node") false "/r" =
      .error (missingMsg "Server.js" ( server_path "/r")) :=
  (C2_preflight_first_missing (fun p => p == "/r/binaries/node") false "/r").2
    (by decide) (by decide) (by decide)

/-- C6: on Windows, `strip_extended_length_prefix` removes a leading
`\\?\` marker and leaves paths without that marker unchanged; on
non-Windows targets it is the identity on every path. -/
theorem C6_path_normalization (p rest : String) :
    ( strip_extended_length_prefix true (String.mk (['\\', '\\', '?', '\\'] ++ rest.data)) = rest) ∧
    (p.data.take 4 ≠ ['\\', '\\', '?', '\\'] → strip_extended_length_prefix true p = p) ∧
    ( strip_extended_length_prefix false p = p) := by
  refine ⟨?_, fun h => ?_, rfl⟩
  · show strip_extended_length_prefix true
      (String.mk (['\\', '\\', '?', '\\'] ++ rest.data)) = rest
    have htake : (['\\', '\\', '?', '\\'] ++ rest.data).take 4 =
        ['\\', '\\', '?', '\\'] := by
      simp
    have hdrop : (['\\', '\\', '?', '\\'] ++ rest.data).drop 4 = rest.data := by
      simp
    simp [ strip_extended_length_prefix, htake, hdrop]
  · simp [ strip_extended_length_prefix, h]

/-- Witness for C6: `\\?\C:\app\resources` normalizes to
`C:\app\resources`, and a path without the marker is unchanged. -/
theorem C6_witness :
    ( strip_extended_length_prefix true "\\\\?\\C:\\app\\resources" = "C:\\app\\resources") ∧
    ( strip_extended_length_prefix true "C:\\app\\resources" = "C:\\app\\resources") ∧
    ( strip_extended_length_prefix false "\\\\?\\C:\\app\\resources" = "\\\\?\\C:\\app\\resources") :=
  ⟨(C6_path_normalization "C:\\app\\resources" "C:\\app\\resources").1,
   (C6_path_normalization "C:\\app\\resources" "C:\\app\\resources").2.1 (by decide),
   (C6_path_normalization "\\\\?\\C:\\app\\resources" "x").2.2⟩

/-- C8: `stop_backend` takes the guarded slot (leaving it empty); when a
handle was present it kills the child and waits for it, with the kill
error discarded (the outcome does not depend on whether the kill
syscall fails); when the slot is already empty it is a no-op; and its
return type carries no error, so it always returns success. -/
theorem C8_stop_backend (slot : Option Nat) (alive : List Nat) (kf : Bool) :
    ( stop_backend slot alive kf).1 = none ∧
    (slot = none → stop_backend slot alive kf = (none, alive, [])) ∧
    (∀ pid, slot = some pid →
      stop_backend slot alive kf =
        (none, alive.erase pid, [StopEv.kill pid, StopEv.wait pid])) ∧
    stop_backend slot alive true = stop_backend slot alive false := by
  cases slot <;> simp [stop_backend]

/-- Witness for C8: stopping a supervisor tracking pid 5 empties the slot
and kills/waits pid 5; stopping an Idle supervisor changes nothing. -/
theorem C8_witness :
    ( stop_backend (some 5) [5] false =
        (none, List.erase [5] 5, [StopEv.kill 5, StopEv.wait 5])) ∧
    ( stop_backend none [] false = (none, [], [])) :=
  ⟨(C8_stop_backend (some 5) [5] false).2.2.1 5 rfl,
   (C8_stop_backend none [] false).2.1 rfl⟩

/-- C9: `complete_setup` mutates the in-memory flag before saving, so on
a failing save it returns an error while the record's `setup_completed`
flag is already `true`. -/
theorem C9_complete_setup_not_atomic (c : Config) (w : FsWorld)
    (h : w.writeFails = true) :
    (Config.complete_setup c w).2 = .error "Failed to write config" ∧
    (Config.complete_setup c w).1.setup_completed = true := by
  simp [Config.complete_setup, Config.save, h]

/-- Witness for C9: completing setup on `cfgEx` while the write fails
errors out yet leaves the in-memory flag set. -/
theorem C9_witness :
    (Config.complete_setup cfgEx { configFile := none, writeFails := true }).2 =
      .error "Failed to write config" ∧
    (Config.complete_setup cfgEx { configFile := none, writeFails := true }).1.setup_completed = true :=
  C9_complete_setup_not_atomic cfgEx { configFile := none, writeFails := true } rfl

/-- C4: for every valid configuration, `save` followed by `load` returns
the saved record (round-trip law); and `load` with no persisted file
builds the default record with a freshly generated 64-character session
secret, persists it, and returns it. -/
theorem C4_save_load_roundtrip (c : Config) (w w' : FsWorld) (r1 r2 : Nat)
    (hmp : c.meshtastic_port < 65536) (hwp : c.web_port < 65536) :
    (Config.save c w = .ok w' → Config.load w' r1 r2 = .ok (c, w')) ∧
    (w.configFile = none → w.writeFails = false →
      Config.load w r1 r2 = .ok (Config.mkDefault r1 r2,
        { w with configFile := some (Config.mkDefault r1 r2).toJson }) ∧
      (Config.mkDefault r1 r2).session_secret.length = 64) := by
  constructor
  · intro hsave
    cases hwf : w.writeFails with
    | true => simp [Config.save, hwf] at hsave
    | false =>
        simp only [Config.save, hwf, Bool.false_eq_true, if_false,
          Except.ok.injEq] at hsave
        subst hsave
        simp [Config.load, Config.fromJson_toJson c hmp hwp]
  · intro hnone hwf
    refine ⟨?_, generate_secret_length r1 r2⟩
    simp [Config.load, hnone, Config.save, hwf]

/-- Witness for C4: round trip at `cfgEx`, and first load on a missing
file at randomness (0, 0). -/
theorem C4_witness :
    (Config.load { configFile := some (Config.toJson cfgEx), writeFails := false } 0 0 =
      .ok (cfgEx, { configFile := some (Config.toJson cfgEx), writeFails := false })) ∧
    (Config.load { configFile := none, writeFails := false } 0 0 =
      .ok (Config.mkDefault 0 0,
        { configFile := some (Config.mkDefault 0 0).toJson, writeFails := false }) ∧
      (Config.mkDefault 0 0).session_secret.length = 64) :=
  ⟨(C4_save_load_roundtrip cfgEx { configFile := none, writeFails := false }
      { configFile := some (Config.toJson cfgEx), writeFails := false } 0 0
      (by decide) (by decide)).1 rfl,
   (C4_save_load_roundtrip cfgEx { configFile := none, writeFails := false }
      { configFile := some (Config.toJson cfgEx), writeFails := false } 0 0
      (by decide) (by decide)).2 rfl rfl⟩

/-- C5: `needs_setup` is true exactly when `setup_completed` is false;
`complete_setup` sets the flag and persists it, so a subsequent load
returns a record with `setup_completed` true (hence `needs_setup`
false). -/
theorem C5_needs_setup_complete_setup (c : Config) (w w' : FsWorld) (r1 r2 : Nat)
    (hmp : c.meshtastic_port < 65536) (hwp : c.web_port < 65536)
    (hsave : (Config.complete_setup c w).2 = .ok w') :
    (c.needs_setup = true ↔ c.setup_completed = false) ∧
    (Config.complete_setup c w).1.setup_completed = true ∧
    Config.load w' r1 r2 = .ok ((Config.complete_setup c w).1, w') ∧
    (Config.complete_setup c w).1.needs_setup = false := by
  refine ⟨by simp [Config.needs_setup], rfl, ?_, rfl⟩
  simp only [Config.complete_setup] at hsave ⊢
  cases hwf : w.writeFails with
  | true => simp [Config.save, hwf] at hsave
  | false =>
      simp only [Config.save, hwf, Bool.false_eq_true, if_false,
        Except.ok.injEq] at hsave
      subst hsave
      have hrt : Config.fromJson (Config.toJson { c with setup_completed := true }) =
          .ok { c with setup_completed := true } :=
        Config.fromJson_toJson _ hmp hwp
      simp [Config.load, hrt]

/-- Witness for C5: completing setup on `cfgEx` persists the flag and a
reload sees it. -/
theorem C5_witness :
    Config.load
        { configFile := some (Config.toJson { cfgEx with setup_completed := true }),
          writeFails := false } 0 0 =
      .ok ((Config.complete_setup cfgEx { configFile := none, writeFails := false }).1,
        { configFile := some (Config.toJson { cfgEx with setup_completed := true }),
          writeFails := false }) ∧
    (Config.complete_setup cfgEx { configFile := none, writeFails := false }).1.needs_setup = false :=
  ⟨(C5_needs_setup_complete_setup cfgEx { configFile := none, writeFails := false }
      { configFile := some (Config.toJson { cfgEx with setup_completed := true }),
        writeFails := false } 0 0 (by decide) (by decide) rfl).2.2.1,
   (C5_needs_setup_complete_setup cfgEx { configFile := none, writeFails := false }
      { configFile := some (Config.toJson { cfgEx with setup_completed := true }),
        writeFails := false } 0 0 (by decide) (by decide) rfl).2.2.2⟩

/-- C3: no process-spawn attempt occurs unless configuration load and
every preflight artifact check passed; when the effect trace is empty
the result is an error, and a nonempty trace (a spawn attempt) implies
configuration load succeeded, both derived paths resolved, and every
required artifact existed. -/
theorem C3_no_spawn_before_checks (w : StartWorld) :
    ((start_backend w).2 = [] → ∃ e, (start_backend w).1 = .error e) ∧
    ((start_backend w).2 ≠ [] →
      (∃ cfg w2, Config.load w.fsw w.rng1 w.rng2 = .ok (cfg, w2)) ∧
      (∃ dp, w.dataDir = .ok dp) ∧
      w.logsDirCreateOk = true ∧
      (∃ rd, w.resourceDir = .ok rd ∧
        ∀ a ∈ requiredArtifacts w.isWindows
            ( strip_extended_length_prefix w.isWindows rd),
          w.fs a.2 = true)) := by
  obtain ⟨fsw, r1, r2, dd, lok, rdir, fs, sok, eok, sp, win⟩ := w
  simp only [start_backend]
  cases hload : Config.load fsw r1 r2 with
  | error e => exact ⟨fun _ => ⟨e, rfl⟩, fun h => absurd rfl h⟩
  | ok p =>
    obtain ⟨cfg, w2⟩ := p
    cases dd with
    | error e => exact ⟨fun _ => ⟨e, rfl⟩, fun h => absurd rfl h⟩
    | ok dp =>
      cases lok with
      | false => exact ⟨fun _ => ⟨_, rfl⟩, fun h => absurd rfl h⟩
      | true =>
        cases rdir with
        | error e => exact ⟨fun _ => ⟨_, rfl⟩, fun h => absurd rfl h⟩
        | ok rd =>
          simp only [Bool.false_eq_true, if_false, reduceIte]
          cases hp : preflight fs win ( strip_extended_length_prefix win rd) with
          | error msg => exact ⟨fun _ => ⟨_, rfl⟩, fun h => absurd rfl h⟩
          | ok u =>
            cases u
            have hart := (preflight_ok_iff fs win _).mp hp
            cases sok with
            | false => exact ⟨fun _ => ⟨_, rfl⟩, fun h => absurd rfl h⟩
            | true =>
              cases eok with
              | false => exact ⟨fun _ => ⟨_, rfl⟩, fun h => absurd rfl h⟩
              | true =>
                cases sp with
                | error e =>
                    refine ⟨fun h => List.noConfusion h,
                      fun _ => ⟨⟨cfg, w2, rfl⟩, ⟨dp, rfl⟩, ?_, ⟨rd, rfl, hart⟩⟩⟩
                    trivial
                | ok pid =>
                    refine ⟨fun h => List.noConfusion h,
                      fun _ => ⟨⟨cfg, w2, rfl⟩, ⟨dp, rfl⟩, ?_, ⟨rd, rfl, hart⟩⟩⟩
                    trivial

/-- Witness for C3: with a malformed persisted configuration the trace is
empty and `start_backend` errors out before any spawn. -/
theorem C3_witness :
    ∃ e, (start_backend wFailEx).1 = .error e :=
  (C3_no_spawn_before_checks wFailEx).1 rfl

/-- C7: the environment mapping given to the spawned child is exactly
`NODE_ENV=production`, `PORT=<web_port>`, `MESHTASTIC_NODE_IP=<remote
address>`, `MESHTASTIC_TCP_PORT=<remote port>`, `DATABASE_PATH=<database
file>`, `SESSION_SECRET=<secret>`, and
`ALLOWED_ORIGINS=http://localhost:<web_port>`. -/
theorem C7_child_env (w : StartWorld) (sc : SpawnedCmd) (cfg : Config)
    (w2 : FsWorld) (dp : String)
    (hload : Config.load w.fsw w.rng1 w.rng2 = .ok (cfg, w2))
    (hdp : w.dataDir = .ok dp)
    (hok : (start_backend w).1 = .ok sc) :
    sc.env = [("NODE_ENV", "production"),
              ("PORT", toString cfg.web_port),
              ("MESHTASTIC_NODE_IP", cfg.meshtastic_ip),
              ("MESHTASTIC_TCP_PORT", toString cfg.meshtastic_port),
              ("DATABASE_PATH", dp ++ "/meshmonitor.db"),
              ("SESSION_SECRET", cfg.session_secret),
              ("ALLOWED_ORIGINS", "http://localhost:" ++ toString cfg.web_port)] := by
  obtain ⟨fsw, r1, r2, dd, lok, rdir, fs, sok, eok, sp, win⟩ := w
  simp only at hload hdp
  subst hdp
  simp only [start_backend, hload] at hok
  cases lok with
  | false => simp at hok
  | true =>
    cases rdir with
    | error e => simp at hok
    | ok rd =>
      simp only [Bool.false_eq_true, if_false, reduceIte] at hok
      cases hp : preflight fs win ( strip_extended_length_prefix win rd) with
      | error msg => simp [hp] at hok
      | ok u =>
        cases u
        simp only [hp] at hok
        cases sok with
        | false => simp at hok
        | true =>
          cases eok with
          | false => simp at hok
          | true =>
            cases sp with
            | error e => simp at hok
            | ok pid =>
                simp at hok
                subst hok
                rfl

/-- Witness for C7: the successful world `wEx` spawns `scEx`, whose
environment is exactly the specified mapping for `cfgEx` with database
path `/data/meshmonitor.db`. -/
theorem C7_witness :
    scEx.env = [("NODE_ENV", "production"),
                ("PORT", toString cfgEx.web_port),
                ("MESHTASTIC_NODE_IP", cfgEx.meshtastic_ip),
                ("MESHTASTIC_TCP_PORT", toString cfgEx.meshtastic_port),
                ("DATABASE_PATH", "/data" ++ "/meshmonitor.db"),
                ("SESSION_SECRET", cfgEx.session_secret),
                ("ALLOWED_ORIGINS", "http://localhost:" ++ toString cfgEx.web_port)] :=
  C7_child_env wEx scEx cfgEx fswEx "/data" rfl rfl rfl

/-- C10: when the subsequent start fails, `restart_backend` propagates
that error, the guarded slot is left empty, and the previously tracked
child has already been terminated: a failed restart leaves the
supervisor Idle with no backend running. -/
theorem C10_restart_no_rollback (s : SupState) (w : StartWorld) (e : String)
    (hnd : s.alive.Nodup)
    (herr : (start_backend w).1 = .error e) :
    (restart_backend s w).1 = .error e ∧
    (restart_backend s w).2.slot = none ∧
    ∀ p, s.slot = some p → p ∉ (restart_backend s w).2.alive := by
  cases hslot : s.slot with
  | none => simp [restart_backend, stop_backend, hslot, herr]
  | some q =>
      refine ⟨by simp [restart_backend, stop_backend, hslot, herr],
        by simp [restart_backend, stop_backend, hslot, herr], ?_⟩
      intro p hp
      cases hp
      simp only [restart_backend, stop_backend, hslot, herr]
      exact hnd.not_mem_erase

/-- Witness for C10: restarting the supervisor tracking pid 3 against a
world whose configuration file is malformed fails, leaves the slot
empty, and pid 3 is no longer alive. -/
theorem C10_witness :
    (restart_backend supEx wFailEx).1 =
      .error "Failed to parse config: not an object" ∧
    (restart_backend supEx wFailEx).2.slot = none ∧
    3 ∉ (restart_backend supEx wFailEx).2.alive :=
  ⟨(C10_restart_no_rollback supEx wFailEx _ (by decide) rfl).1,
   (C10_restart_no_rollback supEx wFailEx
      "Failed to parse config: not an object" (by decide) rfl).2.1,
   (C10_restart_no_rollback supEx wFailEx
      "Failed to parse config: not an object" (by decide) rfl).2.2 3 rfl⟩

/-- C1: the stop-then-start sequence of `restart_backend` is NOT a
critical section: the mutex is released between the stop, the spawn and
the store. Under the realizable interleaving `cexSched` of two callers
starting from a Running supervisor, both restarts complete with children
pid 1 and pid 2 simultaneously alive while the slot holds only pid 2 —
two concurrently live children traceable to the same supervisor, one of
them orphaned. This refutes the claim as stated. -/
theorem C1_restart_not_critical_section :
    (runSched cexSched cexInit).a.pc = 3 ∧
    (runSched cexSched cexInit).b.pc = 3 ∧
    (runSched cexSched cexInit).sup.alive = [1, 2] ∧
    (runSched cexSched cexInit).sup.slot = some 2 ∧
    1 ∈ (runSched cexSched cexInit).sup.alive ∧
    (runSched cexSched cexInit).sup.slot ≠ some 1 := by decide

end MeshMonitor
